import Mathlib

/-!
# Shallow embedding of the Whitecore gated-download server

The repository is a single Express application (src/unnamed/part_001):
SQLite tables `users` and `settings`, session-backed auth with an SVG
captcha, an admin panel replacing two assets (an image and a zip
archive), a protected download route, and a Telegram-bot front end
reusing the same credential check.

The embedding below translates the relevant JavaScript into pure Lean:
* the SQLite tables become lists of rows, queries become `List.find?`;
* request handlers become functions from (body, session, stores,
  filesystem) to (response, new session, new stores, new filesystem);
* the filesystem is the list of existing absolute paths;
* `bcrypt.hash` / `bcrypt.compare` are kept abstract as function
  parameters (`bhash`, `bcompare`) — the handlers only pass them around;
* JavaScript strings are Lean `String`s; the ASCII fragment relevant to
  this app behaves identically under `trim` / `toLower`.
-/

namespace Whitecore

/-- A row of the `users` table (`id`, `username`, `email` nullable,
`password_hash`, `is_admin` stored as an SQLite integer). -/
structure User where
  id : Nat
  username : String
  email : Option String
  password_hash : String
  is_admin : Nat
  deriving Repr, DecidableEq

/-- The identity snapshot stored in `req.session.user`. -/
structure SessionUser where
  id : Nat
  username : String
  email : String
  isAdmin : Bool
  deriving Repr, DecidableEq

/-- A flash message `{ type, message }` as set by `setFlash`. -/
structure Flash where
  type : String
  message : String
  deriving Repr, DecidableEq

/-- The per-browser session: authenticated user snapshot, outstanding
captcha answer (`none` models JS `null`/`undefined`), pending flash. -/
structure Session where
  user : Option SessionUser
  captcha : Option String
  flash : Option Flash
  deriving Repr, DecidableEq

/-- The helper `setFlash(req, type, message)`: store a flash on the session. -/
def setFlash (sess : Session) (type message : String) : Session :=
  { sess with flash := some ⟨type, message⟩ }

/-- The `users` table, in rowid order. -/
abbrev UsersTable := List User

/-- The `settings` table: `key TEXT PRIMARY KEY, value TEXT NOT NULL`. -/
abbrev SettingsTable := List (String × String)

/-- The filesystem, as the list of paths of existing files. -/
abbrev FileSystem := List String

/-- The query `SELECT value FROM settings WHERE key = ?` (first row, rowid order). -/
def settingRow (settings : SettingsTable) (key : String) : Option (String × String) :=
  settings.find? (fun r => r.1 == key)

/-- The accessor `ensureSetting(key, fallback)`: return the stored value when the key
is present; otherwise `INSERT` the fallback and return it.  Returns the
value together with the table after the call. -/
def ensureSetting (settings : SettingsTable) (key fallback : String) :
    String × SettingsTable :=
  match settingRow settings key with
  | some r => (r.2, settings)
  | none => (fallback, settings ++ [(key, fallback)])

/-- The accessor `setSetting(key, value)`:
`INSERT ... ON CONFLICT(key) DO UPDATE SET value = excluded.value`. -/
def setSetting (settings : SettingsTable) (key value : String) : SettingsTable :=
  if settings.any (fun r => r.1 == key) then
    settings.map (fun r => if r.1 == key then (r.1, value) else r)
  else
    settings ++ [(key, value)]

/-- The accessor `getSetting(key, fallback)`: stored value when present, otherwise
the fallback; never writes. -/
def getSetting (settings : SettingsTable) (key fallback : String) : String :=
  match settingRow settings key with
  | some r => r.2
  | none => fallback

/-- The `PRIMARY KEY` invariant of the `settings` table: no two rows
share a key. -/
def KeysNodup (settings : SettingsTable) : Prop :=
  (settings.map Prod.fst).Nodup

/-! ## String / path helpers used by the server -/

/-- The characters matched by `\s` in the app's regexes, for the ASCII
range the app works with. -/
def isSpaceJs (c : Char) : Bool :=
  c = ' ' || c = '\t' || c = '\n' || c = '\r' || c.toNat = 11 || c.toNat = 12

/-- JS `String.prototype.startsWith`: character-sequence prefix test. -/
def startsWithS (s pre : String) : Bool := pre.toList.isPrefixOf s.toList

/-- JS `String.prototype.endsWith`: character-sequence suffix test. -/
def endsWithS (s suf : String) : Bool := suf.toList.isSuffixOf s.toList

/-- JS `String.prototype.toLowerCase`, for the ASCII fragment the app
manipulates. -/
def toLowerS (s : String) : String := String.mk (s.toList.map Char.toLower)

/-- JS `String.prototype.trim`: strip leading and trailing whitespace. -/
def trimS (s : String) : String :=
  String.mk (((s.toList.dropWhile isSpaceJs).reverse.dropWhile isSpaceJs).reverse)

/-- A character admissible in the email regex classes `[^@\s]`. -/
def emailChar (c : Char) : Bool := !(c = '@') && !(isSpaceJs c)

/-- The test `emailRegex.test`, for `/^[^@\s]+@[^@\s]+\.[^@\s]+$/`: the string
splits as `A ++ "@" ++ R` where `A` is nonempty without `@`/whitespace,
`R` is without `@`/whitespace and contains a dot that is neither its
first nor its last character (the regex's `B ++ "." ++ C` split with
`B`, `C` nonempty). -/
def emailRegexTest (s : String) : Bool :=
  let cs := s.toList
  let a := cs.takeWhile (fun c => c ≠ '@')
  match cs.dropWhile (fun c => c ≠ '@') with
  | [] => false
  | _ :: r =>
    !a.isEmpty && a.all emailChar && r.all emailChar &&
      ((r.drop 1).dropLast).contains '.'

/-- The application directory (`__dirname`); its concrete value is
irrelevant, only that paths are joined onto it. -/
def appDir : String := "/app"

def DEFAULT_IMAGE_URL : String := "/img/whitecore-placeholder.svg"

/-- The value `path.join('downloads', 'whitecore-default.zip')`. -/
def DEFAULT_ZIP_PATH : String := "downloads/whitecore-default.zip"

/-- The function `path.join` for a directory and a relative name without `..`
segments: concatenation with a separator. -/
def pathJoin (a b : String) : String := a ++ "/" ++ b

/-- The expression `storedPath.replace(/^[\\/]/, '')`: drop one leading `/` or `\`. -/
def stripLeadingSlash (p : String) : String :=
  match p.toList with
  | c :: rest => if c = '/' || c = '\\' then String.mk rest else p
  | [] => p

/-- The helper `toAbsolutePath`: `null` on a falsy stored path, the path itself
when absolute (POSIX: leading `/`), otherwise joined onto the app
directory after stripping one leading separator. -/
def toAbsolutePath (storedPath : String) : Option String :=
  if storedPath = "" then none
  else if startsWithS storedPath "/" then some storedPath
  else some (pathJoin appDir (stripLeadingSlash storedPath))

/-- The function `path.basename`: the last path segment, ignoring trailing
separators (`"/"` for a separator-only nonempty path). -/
def basename (p : String) : String :=
  let rest := p.toList.reverse.dropWhile (fun c => c = '/')
  let seg := String.mk ((rest.takeWhile (fun c => c ≠ '/')).reverse)
  if seg = "" && p ≠ "" then "/" else seg

/-- UTF-8 bytes of a code point. -/
def utf8Bytes (n : Nat) : List Nat :=
  if n < 0x80 then [n]
  else if n < 0x800 then [0xC0 + n / 0x40, 0x80 + n % 0x40]
  else if n < 0x10000 then
    [0xE0 + n / 0x1000, 0x80 + (n / 0x40) % 0x40, 0x80 + n % 0x40]
  else
    [0xF0 + n / 0x40000, 0x80 + (n / 0x1000) % 0x40, 0x80 + (n / 0x40) % 0x40,
     0x80 + n % 0x40]

def hexDigitUpper (n : Nat) : Char :=
  if n < 10 then Char.ofNat (48 + n) else Char.ofNat (55 + n)

def percentByte (b : Nat) : String :=
  String.mk ['%', hexDigitUpper (b / 16), hexDigitUpper (b % 16)]

/-- The characters `encodeURIComponent` leaves unescaped
(`A–Z a–z 0–9 - _ . ! ~ * ' ( )`). -/
def uriUnreserved (c : Char) : Bool :=
  c.isAlphanum || c = '-' || c = '_' || c = '.' || c = '!' || c = '~' ||
    c = '*' || c.toNat = 39 || c = '(' || c = ')'

def encodeURIComponent (s : String) : String :=
  String.join (s.toList.map (fun c =>
    if uriUnreserved c then String.singleton c
    else String.join ((utf8Bytes c.toNat).map percentByte)))

/-! ## Captcha -/

/-- The route `GET /captcha`: store the lowercase plaintext answer in the
session (`req.session.captcha = captcha.text.toLowerCase()`). -/
def getCaptcha (text : String) (sess : Session) : Session :=
  { sess with captcha := some (toLowerS text) }

/-- The failing condition of the captcha guard shared by
`POST /register` and `POST /login`:
`!sessionCaptcha || captcha.toLowerCase() !== sessionCaptcha`. -/
def captchaFails (sessionCaptcha : Option String) (submitted : String) : Bool :=
  match sessionCaptcha with
  | none => true
  | some sc => sc == "" || toLowerS submitted != sc

/-! ## Responses and route handlers -/

inductive Response where
  | redirect (url : String)
  | render (view : String)
  | download (absPath : String) (filename : String) (cacheControl : String)
  deriving Repr, DecidableEq

/-- The `POST /register` form fields, absent fields defaulting to `""`. -/
structure RegisterBody where
  username : String
  email : String
  password : String
  captcha : String
  next : String
  deriving Repr, DecidableEq

structure RegisterResult where
  response : Response
  session : Session
  users : UsersTable
  deriving Repr, DecidableEq

/-- The `lastID` of the `AUTOINCREMENT` insert: largest used id plus
one (users are never deleted). -/
def nextUserId (users : UsersTable) : Nat :=
  users.foldl (fun m u => max m u.id) 0 + 1

/-- The `POST /register` handler. -/
def postRegister (bhash : String → String) (body : RegisterBody) (sess0 : Session)
    (users : UsersTable) : RegisterResult :=
  let normalizedUser := trimS body.username
  let normalizedEmail := toLowerS (trimS body.email)
  let sessionCaptcha := sess0.captcha
  let sess := { sess0 with captcha := none }
  if captchaFails sessionCaptcha body.captcha then
    ⟨.redirect "/register", setFlash sess "error" "Неверная капча", users⟩
  else if normalizedUser == "" || body.password == "" || normalizedEmail == "" then
    ⟨.redirect "/register", setFlash sess "error" "Логин, email и пароль обязательны", users⟩
  else if normalizedUser.length < 3 then
    ⟨.redirect "/register", setFlash sess "error" "Логин должен быть длиннее 3 символов", users⟩
  else if !emailRegexTest normalizedEmail then
    ⟨.redirect "/register", setFlash sess "error" "Укажите корректный email", users⟩
  else if (users.find? (fun u => u.username == normalizedUser)).isSome then
    ⟨.redirect "/register", setFlash sess "error" "Такой логин уже существует", users⟩
  else if (users.find? (fun u => u.email == some normalizedEmail)).isSome then
    ⟨.redirect "/register", setFlash sess "error" "Такой email уже зарегистрирован", users⟩
  else
    let uid := nextUserId users
    let newUser : User := ⟨uid, normalizedUser, some normalizedEmail, bhash body.password, 0⟩
    ⟨.redirect (if body.next == "" then "/" else body.next),
     setFlash { sess with user := some ⟨uid, normalizedUser, normalizedEmail, false⟩ }
       "success" "Аккаунт создан, добро пожаловать!",
     users ++ [newUser]⟩

structure LoginBody where
  username : String
  password : String
  captcha : String
  next : String
  deriving Repr, DecidableEq

structure LoginResult where
  response : Response
  session : Session
  deriving Repr, DecidableEq

/-- The query `SELECT ... FROM users WHERE username = ? OR email = ?` with
parameters `[identifier, identifierLower]` (first row in rowid order). -/
def findLoginUser (users : UsersTable) (identifier identifierLower : String) : Option User :=
  users.find? (fun u => u.username == identifier || u.email == some identifierLower)

/-- The `POST /login` handler. -/
def postLogin (bcompare : String → String → Bool) (body : LoginBody) (sess0 : Session)
    (users : UsersTable) : LoginResult :=
  let sessionCaptcha := sess0.captcha
  let sess := { sess0 with captcha := none }
  if captchaFails sessionCaptcha body.captcha then
    ⟨.redirect "/login", setFlash sess "error" "Неверная капча"⟩
  else
    let identifier := trimS body.username
    let identifierLower := toLowerS identifier
    match findLoginUser users identifier identifierLower with
    | none => ⟨.redirect "/login", setFlash sess "error" "Пользователь не найден"⟩
    | some user =>
      if !(bcompare body.password user.password_hash) then
        ⟨.redirect "/login", setFlash sess "error" "Неверный пароль"⟩
      else
        ⟨.redirect (if body.next == "" then "/" else body.next),
         setFlash
           { sess with
             user := some ⟨user.id, user.username, user.email.getD "", user.is_admin != 0⟩ }
           "success" "Вы вошли в систему"⟩

/-! ## Authorization gates -/

/-- The gate `requireAuth`: redirect a sessionless request to
`/login?next=<encodeURIComponent(req.originalUrl)>`, otherwise pass. -/
def requireAuth (sess : Session) (originalUrl : String) : Option Response :=
  if sess.user.isNone then
    some (.redirect ("/login?next=" ++ encodeURIComponent originalUrl))
  else none

/-- The gate `requireAdmin`: redirect when there is no session user or the
admin flag is false, otherwise pass. -/
def requireAdmin (sess : Session) : Option Response :=
  match sess.user with
  | none => some (.redirect "/login?next=/admin")
  | some u => if !u.isAdmin then some (.redirect "/login?next=/admin") else none

/-- Route dispatch through a gate: the handler body runs only when the
gate passed. -/
def runGated (gate : Option Response) (handler : Unit → Response) : Response :=
  match gate with
  | some r => r
  | none => handler ()

/-! ## GET /download -/

structure DownloadResult where
  response : Response
  session : Session
  deriving Repr, DecidableEq

/-- The `GET /download` route (behind `requireAuth`). -/
def getDownload (sess : Session) (settings : SettingsTable) (fs : FileSystem) :
    DownloadResult :=
  match requireAuth sess "/download" with
  | some r => ⟨r, sess⟩
  | none =>
    let zipPath := getSetting settings "cheat_zip_path" DEFAULT_ZIP_PATH
    match toAbsolutePath zipPath with
    | none => ⟨.redirect "/", setFlash sess "error" "Файл пока недоступен, свяжитесь с админом"⟩
    | some absoluteZip =>
      if !(fs.contains absoluteZip) then
        ⟨.redirect "/", setFlash sess "error" "Файл пока недоступен, свяжитесь с админом"⟩
      else
        ⟨.download absoluteZip
          (if basename absoluteZip = "" then "whitecore.zip" else basename absoluteZip)
          "no-store", sess⟩

/-! ## Admin uploads -/

structure UploadedFile where
  filename : String
  originalname : String
  mimetype : String
  deriving Repr, DecidableEq

/-- What the upload middleware hands to the route callback: an error
(from the file filter), no file part, or the stored file. -/
inductive UploadOutcome where
  | err (message : String)
  | noFile
  | file (f : UploadedFile)
  deriving Repr, DecidableEq

/-- The `uploadImage` file filter: accept iff the MIME type starts with
`image/`. -/
def imageFileFilter (f : UploadedFile) : Bool := startsWithS f.mimetype "image/"

/-- The `uploadZip` file filter: accept iff the lowercased original name
ends with `.zip`. -/
def zipFileFilter (f : UploadedFile) : Bool := endsWithS (toLowerS f.originalname) ".zip"

/-- The multer `single(...)` middleware: no part gives `req.file`
undefined; a part rejected by the filter surfaces the filter's error. -/
def multerOutcome (fileFilter : UploadedFile → Bool) (errMessage : String)
    (part : Option UploadedFile) : UploadOutcome :=
  match part with
  | none => .noFile
  | some f => if fileFilter f then .file f else .err errMessage

/-- Best-effort `fs.unlink`: the path no longer exists afterwards. -/
def unlink (fs : FileSystem) (p : String) : FileSystem := fs.filter (fun q => q != p)

structure AdminUploadResult where
  response : Response
  session : Session
  settings : SettingsTable
  fs : FileSystem
  deriving Repr, DecidableEq

/-- The `POST /admin/upload-image` callback (behind `requireAdmin`). -/
def postUploadImage (outcome : UploadOutcome) (sess : Session)
    (settings : SettingsTable) (fs : FileSystem) : AdminUploadResult :=
  match outcome with
  | .err m => ⟨.redirect "/admin", setFlash sess "error" m, settings, fs⟩
  | .noFile => ⟨.redirect "/admin", setFlash sess "error" "Файл не получен", settings, fs⟩
  | .file f =>
    let newUrl := "/uploads/" ++ f.filename
    let prev := getSetting settings "cheat_image_url" DEFAULT_IMAGE_URL
    let fs1 :=
      if prev != "" && startsWithS prev "/uploads/" then
        match toAbsolutePath prev with
        | some prevAbsolute =>
          if fs.contains prevAbsolute then unlink fs prevAbsolute else fs
        | none => fs
      else fs
    ⟨.redirect "/admin", setFlash sess "success" "Картинка чита обновлена",
     setSetting settings "cheat_image_url" newUrl, fs1⟩

/-- The `POST /admin/upload-zip` callback (behind `requireAdmin`). -/
def postUploadZip (outcome : UploadOutcome) (sess : Session)
    (settings : SettingsTable) (fs : FileSystem) : AdminUploadResult :=
  match outcome with
  | .err m => ⟨.redirect "/admin", setFlash sess "error" m, settings, fs⟩
  | .noFile => ⟨.redirect "/admin", setFlash sess "error" "Архив не получен", settings, fs⟩
  | .file f =>
    let newPath := pathJoin "downloads" f.filename
    let prev := getSetting settings "cheat_zip_path" DEFAULT_ZIP_PATH
    let fs1 :=
      if prev != "" && startsWithS prev "downloads" then
        match toAbsolutePath prev with
        | some prevAbsolute =>
          if fs.contains prevAbsolute then unlink fs prevAbsolute else fs
        | none => fs
      else fs
    ⟨.redirect "/admin", setFlash sess "success" "Файл чита обновлен",
     setSetting settings "cheat_zip_path" newPath, fs1⟩

/-- The disk path of the managed image behind a `/uploads/<name>` URL:
multer's image storage writes into `UPLOADS_DIR =
path.join(__dirname, 'uploads')` and the static mount serves
`/uploads` from that directory, so the file referenced by the URL
`/uploads/<name>` lives at `__dirname/uploads/<name>`, i.e. at the app
directory prefixed to the URL. -/
def uploadsDiskPath (url : String) : String := appDir ++ url

/-! ## Telegram bot front end -/

/-- The bot's identity snapshot (no email field). -/
structure BotUser where
  id : Nat
  username : String
  isAdmin : Bool
  deriving Repr, DecidableEq

/-- The bot's in-memory `sessions` map, `chatId -> user`. -/
abbrev BotSessions := List (Nat × BotUser)

def mapGet (sessions : BotSessions) (chatId : Nat) : Option BotUser :=
  (sessions.find? (fun p => p.1 == chatId)).map Prod.snd

def mapSet (sessions : BotSessions) (chatId : Nat) (u : BotUser) : BotSessions :=
  (chatId, u) :: sessions.filter (fun p => p.1 != chatId)

def mapDelete (sessions : BotSessions) (chatId : Nat) : BotSessions :=
  sessions.filter (fun p => p.1 != chatId)

/-- The bot helper `loginWithCredentials`: the same lookup and hash check as the web
login, with no captcha step. -/
def loginWithCredentials (bcompare : String → String → Bool) (users : UsersTable)
    (username password : String) : Option BotUser :=
  let identifier := trimS username
  let identifierLower := toLowerS identifier
  match findLoginUser users identifier identifierLower with
  | none => none
  | some user =>
    if !(bcompare password user.password_hash) then none
    else some ⟨user.id, user.username, user.is_admin != 0⟩

inductive BotReply where
  | message (text : String)
  | document (absPath : String) (filename : String)
  deriving Repr, DecidableEq

/-- The expression `credentials.split(/\s+/)`: split on maximal whitespace runs,
keeping the empty pieces a leading or trailing run produces. -/
def splitWsGo : List Char → List Char → List String
  | [], cur => [String.mk cur.reverse]
  | c :: rest, cur =>
    if isSpaceJs c then
      String.mk cur.reverse :: splitWsGo (rest.dropWhile isSpaceJs) []
    else
      splitWsGo rest (c :: cur)
termination_by cs _ => cs.length
decreasing_by
  · exact Nat.lt_succ_of_le (List.dropWhile_sublist _).length_le
  · simp

def splitWs (s : String) : List String := splitWsGo s.toList []

/-- The bot `/login <credentials>` handler. -/
def botLogin (bcompare : String → String → Bool) (users : UsersTable) (chatId : Nat)
    (credentials : String) (sessions : BotSessions) : BotReply × BotSessions :=
  let parts := splitWs credentials
  let username := parts.getD 0 ""
  let password := parts.getD 1 ""
  if username == "" || password == "" then
    (.message "Формат: /login <логин> <пароль>", sessions)
  else
    match loginWithCredentials bcompare users username password with
    | none => (.message "Неверные данные", sessions)
    | some user =>
      (.message ("Вход выполнен. Привет, " ++ user.username ++ "!"),
       mapSet sessions chatId user)

/-- The bot `/download` handler. -/
def botDownload (chatId : Nat) (sessions : BotSessions) (settings : SettingsTable)
    (fs : FileSystem) : BotReply :=
  match mapGet sessions chatId with
  | none => .message "Сначала залогиньтесь: /login <логин> <пароль>"
  | some _ =>
    let zipPath := getSetting settings "cheat_zip_path" DEFAULT_ZIP_PATH
    match toAbsolutePath zipPath with
    | none => .message "Файл пока недоступен, свяжитесь с админом"
    | some absoluteZip =>
      if !(fs.contains absoluteZip) then
        .message "Файл пока недоступен, свяжитесь с админом"
      else
        .document absoluteZip (basename absoluteZip)

/-- The bot `/logout` handler. -/
def botLogout (chatId : Nat) (sessions : BotSessions) : BotReply × BotSessions :=
  (.message "Вы вышли.", mapDelete sessions chatId)

/-! ## Flash-clearing locals middleware -/

/-- The `res.locals` context as populated by the middleware at lines 214–220. -/
structure RenderContext where
  currentUser : Option SessionUser
  flash : Option Flash
  deriving Repr, DecidableEq

/-- The locals middleware: copy the pending flash into the render
context, then `delete req.session.flash` before the route runs. -/
def localsMiddleware (sess : Session) : RenderContext × Session :=
  (⟨sess.user, sess.flash⟩, { sess with flash := none })

/-- A full request through the middleware chain and then an arbitrary
route handler. -/
def runRequest (handler : Session → Response × Session) (sess : Session) :
    RenderContext × Response × Session :=
  let ls := localsMiddleware sess
  let hr := handler ls.2
  (ls.1, hr.1, hr.2)

/-- The `settings` table after `bootstrap()` on a fresh database. -/
def bootstrapSettings : SettingsTable :=
  let e1 := ensureSetting [] "cheat_image_url" DEFAULT_IMAGE_URL
  let e2 := ensureSetting e1.2 "cheat_zip_path" DEFAULT_ZIP_PATH
  e2.2

/-- The disjunction of the `POST /register` rejection conditions, in
the handler's order. -/
def registerRejects (body : RegisterBody) (sess : Session) (users : UsersTable) : Bool :=
  captchaFails sess.captcha body.captcha ||
  (trimS body.username == "" || body.password == "" || toLowerS (trimS body.email) == "") ||
  (trimS body.username).length < 3 ||
  !emailRegexTest (toLowerS (trimS body.email)) ||
  (users.find? (fun u => u.username == trimS body.username)).isSome ||
  (users.find? (fun u => u.email == some (toLowerS (trimS body.email)))).isSome

/-! ## Helper lemmas -/

lemma contains_iff_mem (fs : FileSystem) (p : String) : fs.contains p = true ↔ p ∈ fs := by
  simp [List.elem_iff]

lemma mem_unlink (fs : FileSystem) (p q : String) :
    q ∈ unlink fs p ↔ q ∈ fs ∧ q ≠ p := by
  simp [unlink, List.mem_filter, bne_iff_ne]

lemma not_mem_unlink_self (fs : FileSystem) (p : String) : p ∉ unlink fs p := by
  simp [mem_unlink]

lemma settingRow_append_absent (s : SettingsTable) (key value : String)
    (h : settingRow s key = none) :
    settingRow (s ++ [(key, value)]) key = some (key, value) := by
  simp only [settingRow] at h ⊢
  rw [List.find?_append, h]
  simp [List.find?]

lemma settingRow_map_update (s : SettingsTable) (key value : String)
    (h : (s.find? (fun r => r.1 == key)).isSome) :
    (s.map (fun r => if r.1 == key then (r.1, value) else r)).find? (fun r => r.1 == key)
      = some (key, value) := by
  induction s with
  | nil => simp at h
  | cons a t ih =>
    by_cases ha : a.1 == key
    · have hk : a.1 = key := by simpa using ha
      simp [List.find?, ha, hk]
    · have ht : (t.find? (fun r => r.1 == key)).isSome := by
        simpa [List.find?_cons, ha] using h
      simpa [List.find?, ha] using ih ht

lemma settingRow_setSetting_self (s : SettingsTable) (key value : String) :
    settingRow (setSetting s key value) key = some (key, value) := by
  unfold setSetting
  by_cases h : s.any (fun r => r.1 == key)
  · rw [if_pos h]
    have : (s.find? (fun r => r.1 == key)).isSome := by
      rw [List.find?_isSome]
      simpa [List.any_eq_true] using h
    exact settingRow_map_update s key value this
  · rw [if_neg h]
    apply settingRow_append_absent
    simp only [settingRow, List.find?_eq_none]
    intro r hr
    simp only [List.any_eq_true, not_exists] at h
    exact fun hk => (h r) ⟨hr, hk⟩

lemma getSetting_setSetting_self (s : SettingsTable) (key value fallback : String) :
    getSetting (setSetting s key value) key fallback = value := by
  simp [getSetting, settingRow_setSetting_self]

lemma keys_setSetting (s : SettingsTable) (key value : String) :
    (setSetting s key value).map Prod.fst =
      if s.any (fun r => r.1 == key) then s.map Prod.fst
      else s.map Prod.fst ++ [key] := by
  unfold setSetting
  by_cases h : s.any (fun r => r.1 == key)
  · rw [if_pos h, if_pos h, List.map_map]
    apply List.map_congr_left
    intro r _
    simp only [Function.comp]
    split <;> rfl
  · rw [if_neg h, if_neg h]
    simp

/-! ## Claims -/

/-- C10: on every request dispatched to a route handler, the locals
middleware copies the pending flash into the render context and deletes
it from the session before the handler runs; hence a flash set by one
request is exposed to exactly the next request and consumed by it even
if that request never renders, and at handler entry the session never
carries a flash from two requests ago. -/
theorem C10_flash_middleware (sess : Session)
    (h1 h2 : Session → Response × Session) :
    (runRequest h1 sess).1.flash = sess.flash ∧
    (localsMiddleware sess).2.flash = none ∧
    (runRequest h1 sess).2.2 = (h1 { sess with flash := none }).2 ∧
    (runRequest h2 (runRequest h1 sess).2.2).1.flash = ((runRequest h1 sess).2.2).flash :=
  ⟨rfl, rfl, rfl, rfl⟩

/-- C5: a request whose session has no user, or a user whose admin flag
is false, is redirected by the admin gate to `/login?next=/admin` (the
admin handler never runs, whatever it is); and the plain auth gate
redirects any sessionless request to `/login?next=<encoded URL>`. -/
theorem C5_admin_gate (sess : Session) (url : String)
    (h : sess.user = none ∨ ∃ u, sess.user = some u ∧ u.isAdmin = false) :
    (∀ handler, runGated (requireAdmin sess) handler = .redirect "/login?next=/admin") ∧
    (sess.user = none →
       ∀ handler, runGated (requireAuth sess url) handler =
         .redirect ("/login?next=" ++ encodeURIComponent url)) := by
  constructor
  · intro handler
    rcases h with h | ⟨u, hu, ha⟩
    · simp [runGated, requireAdmin, h]
    · simp [runGated, requireAdmin, hu, ha]
  · intro h0 handler
    simp [runGated, requireAuth, h0]

theorem C5_admin_gate_witness :
    runGated (requireAdmin ⟨some ⟨7, "bob", "b@c.d", false⟩, none, none⟩)
      (fun _ => .render "admin") = .redirect "/login?next=/admin" :=
  (C5_admin_gate ⟨some ⟨7, "bob", "b@c.d", false⟩, none, none⟩ "/download"
    (Or.inr ⟨⟨7, "bob", "b@c.d", false⟩, rfl, rfl⟩)).1 _

/-- C7: the settings accessors meet their contract over the key→value
table: `ensureSetting` returns the stored value when present and
otherwise inserts the fallback and returns it, `getSetting` returns the
stored value or the fallback without writing, and `setSetting` upserts
so that exactly one value is stored for the key afterwards — all three
preserving the at-most-one-value-per-key invariant. -/
theorem C7_settings_contract (s : SettingsTable) (key fallback value v : String)
    (hnd : KeysNodup s) :
    (settingRow s key = some (key, v) →
       ensureSetting s key fallback = (v, s) ∧ getSetting s key fallback = v) ∧
    (settingRow s key = none →
       ensureSetting s key fallback = (fallback, s ++ [(key, fallback)]) ∧
       getSetting s key fallback = fallback ∧
       KeysNodup (s ++ [(key, fallback)])) ∧
    getSetting (setSetting s key value) key fallback = value ∧
    KeysNodup (setSetting s key value) ∧
    ((setSetting s key value).map Prod.fst).count key = 1 := by
  have hkeymem : s.any (fun r => r.1 == key) = true → key ∈ s.map Prod.fst := by
    intro h
    rw [List.any_eq_true] at h
    obtain ⟨r, hr, hk⟩ := h
    exact List.mem_map.mpr ⟨r, hr, by simpa using hk⟩
  have hkeynot : s.any (fun r => r.1 == key) = false → key ∉ s.map Prod.fst := by
    intro h hmem
    obtain ⟨r, hr, hk⟩ := List.mem_map.mp hmem
    rw [List.any_eq_false] at h
    exact h r hr (by simp [hk])
  refine ⟨?_, ?_, getSetting_setSetting_self s key value fallback, ?_, ?_⟩
  · intro h
    constructor
    · unfold ensureSetting
      rw [h]
    · unfold getSetting
      rw [h]
  · intro h
    refine ⟨?_, ?_, ?_⟩
    · unfold ensureSetting
      rw [h]
    · unfold getSetting
      rw [h]
    · unfold KeysNodup at hnd ⊢
      rw [List.map_append, List.nodup_append]
      refine ⟨hnd, by simp, ?_⟩
      intro a ha hb
      simp only [List.map_cons, List.map_nil, List.mem_singleton] at hb
      unfold settingRow at h
      rw [List.find?_eq_none] at h
      obtain ⟨r, hr, hk⟩ := List.mem_map.mp ha
      exact h r hr (by simp [hk, hb])
  · unfold KeysNodup
    rw [keys_setSetting]
    split
    · exact hnd
    · rename_i hany
      rw [List.nodup_append]
      refine ⟨hnd, by simp, ?_⟩
      intro a ha hb
      simp only [List.map_cons, List.map_nil, List.mem_singleton] at hb
      exact hkeynot (Bool.eq_false_iff.mpr hany) (hb ▸ ha)
  · rw [keys_setSetting]
    split
    · exact List.count_eq_one_of_mem hnd (hkeymem ‹_›)
    · rename_i hany
      rw [List.count_append]
      have h0 : (s.map Prod.fst).count key = 0 :=
        List.count_eq_zero_of_not_mem (hkeynot (Bool.eq_false_iff.mpr hany))
      simp [h0]

theorem C7_settings_contract_witness :
    ensureSetting [("k", "v")] "k" "fb" = ("v", [("k", "v")]) ∧
    getSetting (setSetting [("k", "v")] "k" "w") "k" "fb" = "w" :=
  ⟨((C7_settings_contract [("k", "v")] "k" "fb" "w" "v" (by simp [KeysNodup])).1 (by decide)).1,
   (C7_settings_contract [("k", "v")] "k" "fb" "w" "v" (by simp [KeysNodup])).2.2.1⟩

/-- C1: on every `POST /register` and every `POST /login` the session's
stored captcha answer is nulled before the submitted answer is compared
against it, whatever the outcome; consequently a check against a
session with no outstanding captcha — in particular any second check of
the same issued captcha — fails with the bad-captcha flash-redirect. -/
theorem C1_captcha_single_use (bhash : String → String)
    (bcompare : String → String → Bool) (rb : RegisterBody) (lb : LoginBody)
    (s t : Session) (users users2 : UsersTable) (ht : t.captcha = none) :
    (postRegister bhash rb s users).session.captcha = none ∧
    (postLogin bcompare lb s users).session.captcha = none ∧
    postRegister bhash rb t users2 =
      ⟨.redirect "/register",
       { t with captcha := none, flash := some ⟨"error", "Неверная капча"⟩ }, users2⟩ ∧
    postLogin bcompare lb t users2 =
      ⟨.redirect "/login",
       { t with captcha := none, flash := some ⟨"error", "Неверная капча"⟩ }⟩ := by
  have hcr : captchaFails t.captcha rb.captcha = true := by rw [ht]; rfl
  have hcl : captchaFails t.captcha lb.captcha = true := by rw [ht]; rfl
  refine ⟨?_, ?_, ?_, ?_⟩
  · simp only [postRegister, setFlash]
    repeat' split
    all_goals rfl
  · simp only [postLogin, setFlash]
    repeat' split
    all_goals rfl
  · simp only [postRegister, hcr, if_true, setFlash]
  · simp only [postLogin, hcl, if_true, setFlash]

theorem C1_captcha_single_use_witness :
    postLogin (fun _ _ => true) ⟨"bob", "pw", "x", "/"⟩ ⟨none, none, none⟩ [] =
      ⟨.redirect "/login", ⟨none, none, some ⟨"error", "Неверная капча"⟩⟩⟩ :=
  (C1_captcha_single_use (fun p => p) (fun _ _ => true) ⟨"bob", "b@c.d", "pw", "x", "/"⟩
    ⟨"bob", "pw", "x", "/"⟩ ⟨none, some "ab", none⟩ ⟨none, none, none⟩ [] [] rfl).2.2.2

/-- C4: for every authenticated `GET /download`: when the stored
archive setting resolves to no absolute path, or to a path absent from
disk, the result is the not-available flash-redirect to `/`; otherwise
the resolved file is sent as an attachment with `Cache-Control:
no-store`. In particular on a fresh database (bootstrap settings) with
the default archive missing, the result is the flash-redirect. -/
theorem C4_download_gate (sess : Session) (settings : SettingsTable)
    (fs : FileSystem) (u : SessionUser) (hu : sess.user = some u) :
    (toAbsolutePath (getSetting settings "cheat_zip_path" DEFAULT_ZIP_PATH) = none →
       getDownload sess settings fs =
         ⟨.redirect "/", setFlash sess "error" "Файл пока недоступен, свяжитесь с админом"⟩) ∧
    (∀ absoluteZip,
       toAbsolutePath (getSetting settings "cheat_zip_path" DEFAULT_ZIP_PATH) = some absoluteZip →
       (fs.contains absoluteZip = false →
          getDownload sess settings fs =
            ⟨.redirect "/", setFlash sess "error" "Файл пока недоступен, свяжитесь с админом"⟩) ∧
       (fs.contains absoluteZip = true →
          getDownload sess settings fs =
            ⟨.download absoluteZip
               (if basename absoluteZip = "" then "whitecore.zip" else basename absoluteZip)
               "no-store", sess⟩)) ∧
    (fs.contains (pathJoin appDir DEFAULT_ZIP_PATH) = false →
       getDownload sess bootstrapSettings fs =
         ⟨.redirect "/", setFlash sess "error" "Файл пока недоступен, свяжитесь с админом"⟩) := by
  have hauth : requireAuth sess "/download" = none := by
    simp [requireAuth, hu]
  refine ⟨?_, ?_, ?_⟩
  · intro h
    simp only [getDownload, hauth]
    rw [h]
  · intro absoluteZip h
    constructor
    · intro hc
      simp only [getDownload, hauth]
      rw [h]
      simp [hc]
      intro hm
      rw [(contains_iff_mem fs absoluteZip).mpr hm] at hc
      simp at hc
    · intro hc
      simp only [getDownload, hauth]
      rw [h]
      simp [hc]
      exact (contains_iff_mem fs absoluteZip).mp hc
  · intro hc
    have h1 : getSetting bootstrapSettings "cheat_zip_path" DEFAULT_ZIP_PATH
        = DEFAULT_ZIP_PATH := rfl
    have h2 : toAbsolutePath DEFAULT_ZIP_PATH = some (pathJoin appDir DEFAULT_ZIP_PATH) := by
      decide
    simp only [getDownload, hauth, h1]
    rw [h2]
    simp [hc]
    intro hm
    rw [(contains_iff_mem fs (pathJoin appDir DEFAULT_ZIP_PATH)).mpr hm] at hc
    simp at hc

theorem C4_download_gate_witness :
    getDownload ⟨some ⟨1, "bob", "", false⟩, none, none⟩ bootstrapSettings [] =
      ⟨.redirect "/", setFlash ⟨some ⟨1, "bob", "", false⟩, none, none⟩ "error"
        "Файл пока недоступен, свяжитесь с админом"⟩ :=
  (C4_download_gate ⟨some ⟨1, "bob", "", false⟩, none, none⟩ bootstrapSettings []
    ⟨1, "bob", "", false⟩ rfl).2.2 rfl

/-- C8: the image slot accepts a file iff its MIME type starts with
`image/`, the archive slot accepts a file iff its lowercased original
name ends with `.zip`; a rejected or missing file yields an error flash
and a redirect to `/admin` with the settings and filesystem unchanged. -/
theorem C8_upload_allowlists (f : UploadedFile) (part : Option UploadedFile)
    (sess : Session) (settings : SettingsTable) (fs : FileSystem) :
    (multerOutcome imageFileFilter "Допустимы только изображения" part = .file f ↔
       part = some f ∧ startsWithS f.mimetype "image/" = true) ∧
    (multerOutcome zipFileFilter "Нужен ZIP архив" part = .file f ↔
       part = some f ∧ endsWithS (toLowerS f.originalname) ".zip" = true) ∧
    (∀ m, postUploadImage (.err m) sess settings fs =
       ⟨.redirect "/admin", setFlash sess "error" m, settings, fs⟩) ∧
    (postUploadImage .noFile sess settings fs =
       ⟨.redirect "/admin", setFlash sess "error" "Файл не получен", settings, fs⟩) ∧
    (∀ m, postUploadZip (.err m) sess settings fs =
       ⟨.redirect "/admin", setFlash sess "error" m, settings, fs⟩) ∧
    (postUploadZip .noFile sess settings fs =
       ⟨.redirect "/admin", setFlash sess "error" "Архив не получен", settings, fs⟩) := by
  refine ⟨?_, ?_, fun m => rfl, rfl, fun m => rfl, rfl⟩
  · cases part with
    | none => simp [multerOutcome]
    | some g =>
      simp only [multerOutcome, Option.some.injEq]
      by_cases hg : imageFileFilter g = true
      · rw [if_pos hg]
        constructor
        · intro he
          injection he with h
          subst h
          exact ⟨rfl, hg⟩
        · rintro ⟨he, hs⟩
          subst he
          rfl
      · rw [if_neg hg]
        constructor
        · intro he
          exact absurd he (by simp)
        · rintro ⟨he, hs⟩
          subst he
          exact absurd hs hg
  · cases part with
    | none => simp [multerOutcome]
    | some g =>
      simp only [multerOutcome, Option.some.injEq]
      by_cases hg : zipFileFilter g = true
      · rw [if_pos hg]
        constructor
        · intro he
          injection he with h
          subst h
          exact ⟨rfl, hg⟩
        · rintro ⟨he, hs⟩
          subst he
          rfl
      · rw [if_neg hg]
        constructor
        · intro he
          exact absurd he (by simp)
        · rintro ⟨he, hs⟩
          subst he
          exact absurd hs hg

theorem C8_upload_allowlists_witness :
    multerOutcome imageFileFilter "Допустимы только изображения"
      (some ⟨"cheat-1.png", "a.png", "image/png"⟩) =
      .file ⟨"cheat-1.png", "a.png", "image/png"⟩ :=
  (C8_upload_allowlists ⟨"cheat-1.png", "a.png", "image/png"⟩
    (some ⟨"cheat-1.png", "a.png", "image/png"⟩) ⟨none, none, none⟩ [] []).1.mpr
    ⟨rfl, by decide⟩

/-- C3: the claim fails on the image slot, and this theorem evaluates
the code at the failing input. The previous setting value
`/uploads/cheat-1.png` lies in the managed image area and the managed
file exists on disk at `uploadsDiskPath "/uploads/cheat-1.png"` (where
multer stored it and the static mount serves it); but the handler
resolves the previous value with `toAbsolutePath`, which returns the
POSIX-absolute URL unchanged, so `existsSync`/`unlink` target the
root-literal path `/uploads/cheat-1.png` — a different path — and
after the accepted replacement upload the real previous image is still
on disk, even though the setting now points to the new URL. The zip
slot at the analogous input (a relative previous value, which
`toAbsolutePath` resolves into the genuine storage directory) does
delete the real previous archive. -/
theorem C3_image_delete_bug :
    startsWithS "/uploads/cheat-1.png" "/uploads/" = true ∧
    uploadsDiskPath "/uploads/cheat-1.png" = "/app/uploads/cheat-1.png" ∧
    uploadsDiskPath "/uploads/cheat-1.png" ≠ "/uploads/cheat-1.png" ∧
    toAbsolutePath "/uploads/cheat-1.png" = some "/uploads/cheat-1.png" ∧
    uploadsDiskPath "/uploads/cheat-1.png" ∈
      (["/app/uploads/cheat-1.png"] : FileSystem) ∧
    uploadsDiskPath "/uploads/cheat-1.png" ∈
      (postUploadImage (.file ⟨"cheat-2.png", "b.png", "image/png"⟩)
        ⟨none, none, none⟩ [("cheat_image_url", "/uploads/cheat-1.png")]
        ["/app/uploads/cheat-1.png"]).fs ∧
    getSetting (postUploadImage (.file ⟨"cheat-2.png", "b.png", "image/png"⟩)
        ⟨none, none, none⟩ [("cheat_image_url", "/uploads/cheat-1.png")]
        ["/app/uploads/cheat-1.png"]).settings "cheat_image_url" DEFAULT_IMAGE_URL
      = "/uploads/cheat-2.png" ∧
    "/app/downloads/old.zip" ∉
      (postUploadZip (.file ⟨"whitecore-2.zip", "a.zip", "application/zip"⟩)
        ⟨none, none, none⟩ [("cheat_zip_path", "downloads/old.zip")]
        ["/app/downloads/old.zip"]).fs ∧
    getSetting (postUploadZip (.file ⟨"whitecore-2.zip", "a.zip", "application/zip"⟩)
        ⟨none, none, none⟩ [("cheat_zip_path", "downloads/old.zip")]
        ["/app/downloads/old.zip"]).settings "cheat_zip_path" DEFAULT_ZIP_PATH
      = "downloads/whitecore-2.zip" := by
  decide

lemma mapGet_mapSet_self (sessions : BotSessions) (chatId : Nat) (u : BotUser) :
    mapGet (mapSet sessions chatId u) chatId = some u := by
  simp [mapGet, mapSet, List.find?]

lemma mapGet_mapDelete_self (sessions : BotSessions) (chatId : Nat) :
    mapGet (mapDelete sessions chatId) chatId = none := by
  simp only [mapGet, mapDelete, Option.map_eq_none']
  rw [List.find?_eq_none]
  intro p hp
  have h2 := (List.mem_filter.mp hp).2
  simpa using h2

/-- C6: for every `POST /login` that passes the captcha check, the user
is looked up by exact username match on the trimmed identifier or email
match on the lowercased identifier; no match gives the user-not-found
flash-redirect, a failed hash check gives the distinct wrong-password
flash-redirect, and only a successful check populates the session with
the identity snapshot and redirects to the `next` target. -/
theorem C6_login_outcomes (bcompare : String → String → Bool) (body : LoginBody)
    (sess : Session) (users : UsersTable)
    (hc : captchaFails sess.captcha body.captcha = false) :
    (findLoginUser users (trimS body.username) (toLowerS (trimS body.username)) = none →
       postLogin bcompare body sess users =
         ⟨.redirect "/login",
          { sess with captcha := none, flash := some ⟨"error", "Пользователь не найден"⟩ }⟩) ∧
    (∀ user,
       findLoginUser users (trimS body.username) (toLowerS (trimS body.username)) = some user →
       (bcompare body.password user.password_hash = false →
          postLogin bcompare body sess users =
            ⟨.redirect "/login",
             { sess with captcha := none, flash := some ⟨"error", "Неверный пароль"⟩ }⟩) ∧
       (bcompare body.password user.password_hash = true →
          postLogin bcompare body sess users =
            ⟨.redirect (if body.next == "" then "/" else body.next),
             { sess with
               captcha := none
               user := some ⟨user.id, user.username, user.email.getD "", user.is_admin != 0⟩
               flash := some ⟨"success", "Вы вошли в систему"⟩ }⟩)) := by
  constructor
  · intro h
    simp only [postLogin, hc, Bool.false_eq_true, if_false]
    rw [h]
    rfl
  · intro user h
    constructor
    · intro hb
      simp only [postLogin, hc, Bool.false_eq_true, if_false]
      rw [h]
      simp [hb, setFlash]
    · intro hb
      simp only [postLogin, hc, Bool.false_eq_true, if_false]
      rw [h]
      simp [hb, setFlash]

theorem C6_login_outcomes_witness :
    postLogin (fun p h => p == h) ⟨"bob", "hash", "ab", "/x"⟩ ⟨none, some "ab", none⟩
        [⟨1, "bob", some "b@c.d", "hash", 1⟩] =
      ⟨.redirect "/x",
       ⟨some ⟨1, "bob", "b@c.d", true⟩, none, some ⟨"success", "Вы вошли в систему"⟩⟩⟩ :=
  ((C6_login_outcomes (fun p h => p == h) ⟨"bob", "hash", "ab", "/x"⟩ ⟨none, some "ab", none⟩
      [⟨1, "bob", some "b@c.d", "hash", 1⟩] (by decide)).2 ⟨1, "bob", some "b@c.d", "hash", 1⟩
    (by decide)).2 (by decide)

/-- C2: every `POST /register` failing validation (bad captcha, missing
field, short username, malformed email, duplicate username or email)
redirects back to the register form with an error flash, inserts no
user row and leaves the session user unchanged; a duplicate username
never creates a user; an attempt passing all checks inserts exactly one
row and establishes a session for it. -/
theorem C2_register_validation (bhash : String → String) (body : RegisterBody)
    (sess : Session) (users : UsersTable) :
    (registerRejects body sess users = true →
       (postRegister bhash body sess users).users = users ∧
       (postRegister bhash body sess users).response = .redirect "/register" ∧
       (∃ m, (postRegister bhash body sess users).session.flash = some ⟨"error", m⟩) ∧
       (postRegister bhash body sess users).session.user = sess.user) ∧
    ((users.find? (fun u => u.username == trimS body.username)).isSome = true →
       (postRegister bhash body sess users).users = users) ∧
    (registerRejects body sess users = false →
       (postRegister bhash body sess users).users =
         users ++ [⟨nextUserId users, trimS body.username,
                    some (toLowerS (trimS body.email)), bhash body.password, 0⟩] ∧
       (postRegister bhash body sess users).session.user =
         some ⟨nextUserId users, trimS body.username, toLowerS (trimS body.email), false⟩ ∧
       (postRegister bhash body sess users).session.flash =
         some ⟨"success", "Аккаунт создан, добро пожаловать!"⟩) := by
  have finished : ∀ m : String,
      postRegister bhash body sess users =
        ⟨.redirect "/register", setFlash { sess with captcha := none } "error" m,
         users⟩ →
      registerRejects body sess users = true →
      (registerRejects body sess users = true →
       (postRegister bhash body sess users).users = users ∧
       (postRegister bhash body sess users).response = .redirect "/register" ∧
       (∃ m, (postRegister bhash body sess users).session.flash = some ⟨"error", m⟩) ∧
       (postRegister bhash body sess users).session.user = sess.user) ∧
      ((users.find? (fun u => u.username == trimS body.username)).isSome = true →
       (postRegister bhash body sess users).users = users) ∧
      (registerRejects body sess users = false →
       (postRegister bhash body sess users).users =
         users ++ [⟨nextUserId users, trimS body.username,
                    some (toLowerS (trimS body.email)), bhash body.password, 0⟩] ∧
       (postRegister bhash body sess users).session.user =
         some ⟨nextUserId users, trimS body.username, toLowerS (trimS body.email), false⟩ ∧
       (postRegister bhash body sess users).session.flash =
         some ⟨"success", "Аккаунт создан, добро пожаловать!"⟩) := by
    intro m hP hR
    refine ⟨fun _ => ⟨by rw [hP], by rw [hP], ⟨m, by rw [hP]; rfl⟩, by rw [hP]; rfl⟩,
            fun _ => by rw [hP], fun hf => ?_⟩
    rw [hR] at hf
    cases hf
  by_cases h1 : captchaFails sess.captcha body.captcha = true
  · exact finished "Неверная капча" (by simp only [postRegister]; rw [if_pos h1])
      (by simp [registerRejects, h1])
  by_cases h2 : (trimS body.username == "" || body.password == "" ||
      toLowerS (trimS body.email) == "") = true
  · exact finished "Логин, email и пароль обязательны"
      (by simp only [postRegister]; rw [if_neg h1, if_pos h2])
      (by simp [registerRejects, h2])
  by_cases h3 : (trimS body.username).length < 3
  · exact finished "Логин должен быть длиннее 3 символов"
      (by simp only [postRegister]; rw [if_neg h1, if_neg h2, if_pos h3])
      (by simp [registerRejects, h3])
  by_cases h4 : (!emailRegexTest (toLowerS (trimS body.email))) = true
  · exact finished "Укажите корректный email"
      (by simp only [postRegister]; rw [if_neg h1, if_neg h2, if_neg h3, if_pos h4])
      (by simp [registerRejects, h4])
  by_cases h5 : (users.find? (fun u => u.username == trimS body.username)).isSome = true
  · exact finished "Такой логин уже существует"
      (by simp only [postRegister]; rw [if_neg h1, if_neg h2, if_neg h3, if_neg h4, if_pos h5])
      (by simp [registerRejects, h5])
  by_cases h6 : (users.find? (fun u => u.email == some (toLowerS (trimS body.email)))).isSome
      = true
  · exact finished "Такой email уже зарегистрирован"
      (by simp only [postRegister];
          rw [if_neg h1, if_neg h2, if_neg h3, if_neg h4, if_neg h5, if_pos h6])
      (by simp [registerRejects, h6])
  have hP : postRegister bhash body sess users =
      ⟨.redirect (if body.next == "" then "/" else body.next),
       setFlash { { sess with captcha := none } with
           user := some ⟨nextUserId users, trimS body.username,
             toLowerS (trimS body.email), false⟩ }
         "success" "Аккаунт создан, добро пожаловать!",
       users ++ [⟨nextUserId users, trimS body.username, some (toLowerS (trimS body.email)),
                  bhash body.password, 0⟩]⟩ := by
    simp only [postRegister]
    rw [if_neg h1, if_neg h2, if_neg h3, if_neg h4, if_neg h5, if_neg h6]
  have hR : registerRejects body sess users = false := by
    simp only [registerRejects, Bool.eq_false_iff.mpr h1, Bool.eq_false_iff.mpr h2,
      decide_eq_false h3, Bool.eq_false_iff.mpr h4, Bool.eq_false_iff.mpr h5,
      Bool.eq_false_iff.mpr h6, Bool.or_self, Bool.or_false, Bool.false_or]
  refine ⟨fun hr => ?_, fun hf => absurd hf h5,
          fun _ => ⟨by rw [hP], by rw [hP]; rfl, by rw [hP]; rfl⟩⟩
  rw [hR] at hr
  cases hr

theorem C2_register_validation_witness :
    (postRegister (fun p => p) ⟨"carol", "c@d.e", "pw", "ab", "/"⟩
        ⟨none, some "ab", none⟩ []).users = [⟨1, "carol", some "c@d.e", "pw", 0⟩] :=
  ((C2_register_validation (fun p => p) ⟨"carol", "c@d.e", "pw", "ab", "/"⟩
      ⟨none, some "ab", none⟩ []).2.2 (by decide)).1

/-- C9: the bot's credential check is the same username-or-email lookup
and hash verification as the web login against the same users table,
with no captcha step; the bot `/download` yields the archive only for a
chat id present in the bot's in-memory session map, entries being added
by a successful `/login` and removed by `/logout`. -/
theorem C9_bot_parity (bcompare : String → String → Bool) (users : UsersTable)
    (body : LoginBody) (sess : Session) (chatId : Nat) (sessions : BotSessions)
    (settings : SettingsTable) (fs : FileSystem) (credentials : String)
    (hc : captchaFails sess.captcha body.captcha = false) :
    ((loginWithCredentials bcompare users body.username body.password).isSome ↔
       (postLogin bcompare body sess users).session.flash =
         some ⟨"success", "Вы вошли в систему"⟩) ∧
    (∀ bu, loginWithCredentials bcompare users body.username body.password = some bu →
       ∃ su, (postLogin bcompare body sess users).session.user = some su ∧
         su.id = bu.id ∧ su.username = bu.username ∧ su.isAdmin = bu.isAdmin) ∧
    (mapGet sessions chatId = none →
       ∀ a fn, botDownload chatId sessions settings fs ≠ .document a fn) ∧
    (∀ bu a, mapGet sessions chatId = some bu →
       toAbsolutePath (getSetting settings "cheat_zip_path" DEFAULT_ZIP_PATH) = some a →
       fs.contains a = true →
       botDownload chatId sessions settings fs = .document a (basename a)) ∧
    (∀ bu, loginWithCredentials bcompare users ((splitWs credentials).getD 0 "")
        ((splitWs credentials).getD 1 "") = some bu →
       ((splitWs credentials).getD 0 "" == "") = false →
       ((splitWs credentials).getD 1 "" == "") = false →
       mapGet (botLogin bcompare users chatId credentials sessions).2 chatId = some bu) ∧
    mapGet (botLogout chatId sessions).2 chatId = none := by
  refine ⟨?_, ?_, ?_, ?_, ?_, mapGet_mapDelete_self sessions chatId⟩
  · simp only [postLogin, loginWithCredentials, hc, Bool.false_eq_true, if_false]
    cases hF : findLoginUser users (trimS body.username) (toLowerS (trimS body.username)) with
    | none => simp [setFlash]
    | some user =>
      by_cases hb : bcompare body.password user.password_hash = true
      · simp [hb, setFlash]
      · have hb' : bcompare body.password user.password_hash = false :=
          Bool.eq_false_iff.mpr hb
        simp [hb', setFlash]
  · intro bu hbu
    simp only [postLogin, hc, Bool.false_eq_true, if_false]
    simp only [loginWithCredentials] at hbu
    cases hF : findLoginUser users (trimS body.username) (toLowerS (trimS body.username)) with
    | none =>
      rw [hF] at hbu
      cases hbu
    | some user =>
      rw [hF] at hbu
      by_cases hb : bcompare body.password user.password_hash = true
      · simp only [hb, Bool.not_true, Bool.false_eq_true, if_false] at hbu
        injection hbu with hbu
        subst hbu
        exact ⟨⟨user.id, user.username, user.email.getD "", user.is_admin != 0⟩,
          by simp [hb, setFlash], rfl, rfl, rfl⟩
      · have hb' : bcompare body.password user.password_hash = false :=
          Bool.eq_false_iff.mpr hb
        simp [hb'] at hbu
  · intro h a fn
    simp [botDownload, h]
  · intro bu a hm ha hfc
    simp only [botDownload, hm]
    rw [ha]
    simp [hfc]
    exact (contains_iff_mem fs a).mp hfc
  · intro bu hlog hu hp
    simp only [botLogin, hu, hp, Bool.or_self, Bool.false_eq_true, if_false]
    rw [hlog]
    exact mapGet_mapSet_self sessions chatId bu

theorem C9_bot_parity_witness :
    (postLogin (fun p h => p == h) ⟨"bob", "pw", "ab", "/"⟩ ⟨none, some "ab", none⟩
        [⟨1, "bob", some "b@c.d", "pw", 1⟩]).session.flash =
      some ⟨"success", "Вы вошли в систему"⟩ :=
  ((C9_bot_parity (fun p h => p == h) [⟨1, "bob", some "b@c.d", "pw", 1⟩]
      ⟨"bob", "pw", "ab", "/"⟩ ⟨none, some "ab", none⟩ 0 [] [] [] "x" (by decide)).1).mp
    (by decide)

end Whitecore
